import Mathlib

/-
Verification of the security-bot risk engine.

Shallow embedding of the spam-detection, content-filter, security and
raid-protection modules.  JavaScript numbers are modelled as Nat (counts,
scores) or Int (timestamps) where the code only does integer arithmetic,
and as Rat where the code divides (ratios, averages).  Strings are
modelled as Lean String or List Char.  The keyed Collections of the
source are modelled as functions from keys to Option values.
-/

namespace SpamDetection

/-- Violation record kept per user.  The source default (returned by
getUserViolations for an unknown user) only sets count and lastViolation;
the remaining fields are absent, modelled here as empty defaults. -/
structure ViolationRecord where
  count : Nat
  lastViolation : Int
  lastReason : String
  lastSeverity : Nat
deriving Repr, DecidableEq

abbrev ViolationsMap := String → Option ViolationRecord

def emptyViolations : ViolationsMap := fun _ => none

/-- Embeds SpamDetection.getUserViolations: the stored record, or the
default record with count 0 and lastViolation 0. -/
def getUserViolations (m : ViolationsMap) (userId : String) : ViolationRecord :=
  (m userId).getD { count := 0, lastViolation := 0, lastReason := "", lastSeverity := 0 }

/-- Embeds SpamDetection.addViolation: increments count and stores the
last reason, severity and current time under the user key. -/
def addViolation (m : ViolationsMap) (userId reason : String) (severity : Nat)
    (now : Int) : ViolationsMap :=
  let v := getUserViolations m userId
  fun uid =>
    if uid = userId then
      some { count := v.count + 1, lastViolation := now,
             lastReason := reason, lastSeverity := severity }
    else m uid

/-- Embeds SpamDetection.determineAction: progressive punishment from the
instantaneous severity and the stored violation count. -/
def determineAction (m : ViolationsMap) (userId : String) (severity : Nat) : String :=
  let violations := getUserViolations m userId
  if 80 ≤ severity ∨ 5 ≤ violations.count then "ban"
  else if 60 ≤ severity ∨ 3 ≤ violations.count then "kick"
  else if 40 ≤ severity ∨ 2 ≤ violations.count then "timeout"
  else if 20 ≤ severity ∨ 1 ≤ violations.count then "warn"
  else "none"

/-- Embeds the violation part of SpamDetection.cleanup: records whose
last violation is more than one hour old are deleted. -/
def cleanupViolations (m : ViolationsMap) (now : Int) : ViolationsMap :=
  fun uid =>
    match m uid with
    | some v => if 3600000 < now - v.lastViolation then none else some v
    | none => none

/-- One entry of the per-user message window. -/
structure StoredMessage where
  content : String
  timestamp : Int
  channelId : String
deriving Repr, DecidableEq

/-- Embeds the window update of analyzeMessage (lines 50 to 61): entries
older than five minutes are dropped and the current message appended. -/
def updateHistory (history : List StoredMessage) (content channelId : String)
    (now : Int) : List StoredMessage :=
  (history.filter (fun msg => now - 300000 < msg.timestamp)) ++
    [{ content := content, timestamp := now, channelId := channelId }]

/-- Result record shared by the sub-checks of analyzeMessage. -/
structure CheckResult where
  isSpam : Bool
  confidence : Nat
  reasons : List String
  severity : Nat
deriving Repr, DecidableEq

/-- Embeds SpamDetection.checkDuplicateMessages: count exact content
matches in the window (the current message already appended); flag when
the count exceeds the configured maximum.  The interpolated count in the
reason string is omitted. -/
def checkDuplicateMessages (maxDuplicateMessages : Nat) (messages : List StoredMessage)
    (currentContent : String) : CheckResult :=
  let duplicateCount := (messages.filter (fun msg => msg.content = currentContent)).length
  if maxDuplicateMessages < duplicateCount then
    { isSpam := true, confidence := min (duplicateCount * 20) 80,
      reasons := ["Duplicate message"], severity := min (duplicateCount * 15) 60 }
  else
    { isSpam := false, confidence := 0, reasons := [], severity := 0 }

/-- The message window produced by a sequence of sends of the same
content, each processed through the analyzeMessage window update. -/
def sendsHistory (content channelId : String) (times : List Int) : List StoredMessage :=
  times.foldl (fun h t => updateHistory h content channelId t) []

/-- Line terminators, which the dot of the repeated-character regex does
not match. -/
def lineTerminators : List Char := ['\n', '\r', Char.ofNat 0x2028, Char.ofNat 0x2029]

/-- Window check of the repeatedChars regex at one position: five equal
consecutive characters, not a line terminator. -/
def repeatedWindow (a : Char) (rest : List Char) : Bool :=
  match rest with
  | b :: c :: d :: e :: _ => decide (a = b ∧ b = c ∧ c = d ∧ d = e ∧ a ∉ lineTerminators)
  | _ => false

/-- Embeds the repeatedChars test: the regex matches exactly when five
consecutive equal non-line-terminator characters occur somewhere. -/
def hasRepeatedRun : List Char → Bool
  | [] => false
  | a :: rest => repeatedWindow a rest || hasRepeatedRun rest

/-- Run accumulator for the capsLock regex: cur is the length of the
current unfinished run of ASCII capitals. -/
def capsRunsAux : List Char → Nat → List Nat
  | [], cur => if cur = 0 then [] else [cur]
  | c :: cs, cur =>
    if c.isUpper then capsRunsAux cs (cur + 1)
    else if cur = 0 then capsRunsAux cs 0 else cur :: capsRunsAux cs 0

/-- Lengths of the maximal runs of ASCII capitals, as matched by the
capsLock regex (each match is one maximal run; runs shorter than ten are
filtered out afterwards). -/
def capsRunLengths (l : List Char) : List Nat :=
  capsRunsAux l 0

/-- Code points matched by the excessiveEmojis regex ranges. -/
def isEmojiChar (c : Char) : Bool :=
  (0x1F600 ≤ c.toNat && c.toNat ≤ 0x1F64F) || (0x1F300 ≤ c.toNat && c.toNat ≤ 0x1F5FF) ||
  (0x1F680 ≤ c.toNat && c.toNat ≤ 0x1F6FF) || (0x1F1E0 ≤ c.toNat && c.toNat ≤ 0x1F1FF)

/-- Code points matched by the zalgoText regex ranges. -/
def isZalgoChar (c : Char) : Bool :=
  (0x300 ≤ c.toNat && c.toNat ≤ 0x36F) || (0x1AB0 ≤ c.toNat && c.toNat ≤ 0x1AFF) ||
  (0x1DC0 ≤ c.toNat && c.toNat ≤ 0x1DFF) || (0x20D0 ≤ c.toNat && c.toNat ≤ 0x20FF)

/-- Code points matched by the invisibleChars regex ranges. -/
def isInvisibleChar (c : Char) : Bool :=
  (0x200B ≤ c.toNat && c.toNat ≤ 0x200D) || c.toNat == 0xFEFF

/-- Embeds SpamDetection.checkContentPatterns (lines 160 to 212): the
five pattern signals accumulate confidence and severity additively.
Interpolated counts in reason strings are omitted. -/
def checkContentPatterns (content : List Char) : CheckResult :=
  let repeated := hasRepeatedRun content
  let capsRuns := (capsRunLengths content).filter (fun n => 10 ≤ n)
  let capsTriggered := !capsRuns.isEmpty && decide (20 < content.length) &&
    decide ((7 : ℚ)/10 < (capsRuns.sum : ℚ) / (content.length : ℚ))
  let emojiCount := (content.filter isEmojiChar).length
  let zalgoCount := (content.filter isZalgoChar).length
  let invisibleCount := (content.filter isInvisibleChar).length
  { isSpam := repeated || capsTriggered || decide (10 < emojiCount) ||
      decide (20 < zalgoCount) || decide (5 < invisibleCount)
    confidence := (if repeated then 25 else 0) + (if capsTriggered then 20 else 0) +
      (if 10 < emojiCount then 30 else 0) + (if 20 < zalgoCount then 40 else 0) +
      (if 5 < invisibleCount then 35 else 0)
    reasons := (if repeated then ["Excessive repeated characters"] else []) ++
      (if capsTriggered then ["Excessive caps lock"] else []) ++
      (if 10 < emojiCount then ["Excessive emojis"] else []) ++
      (if 20 < zalgoCount then ["Zalgo/corrupted text detected"] else []) ++
      (if 5 < invisibleCount then ["Invisible character spam"] else [])
    severity := (if repeated then 20 else 0) + (if capsTriggered then 15 else 0) +
      (if 10 < emojiCount then 25 else 0) + (if 20 < zalgoCount then 35 else 0) +
      (if 5 < invisibleCount then 30 else 0) }

end SpamDetection

namespace Utils

/-- Embeds levenshteinDistance from the utils module.  The source fills
the DP matrix with matrix i j = distance between the length-i prefix of
str2 and the length-j prefix of str1, using the recurrence at lines
1598 to 1606 (equal heads: diagonal; otherwise 1 + min of the three
neighbours); this definition is that recurrence itself. -/
def levenshteinDistance : List Char → List Char → Nat
  | [], ys => ys.length
  | x :: xs, [] => (x :: xs).length
  | x :: xs, y :: ys =>
    if x = y then levenshteinDistance xs ys
    else
      min (levenshteinDistance xs ys + 1)
        (min (levenshteinDistance (x :: xs) ys + 1) (levenshteinDistance xs (y :: ys) + 1))
termination_by xs ys => xs.length + ys.length
decreasing_by all_goals simp_arith

/-- Embeds calculateSimilarity from the utils module: the longer string
is compared against the shorter, 1 for two empty strings, otherwise
the ratio of non-edited characters of the longer string. -/
def calculateSimilarity (str1 str2 : List Char) : ℚ :=
  let longer := if str2.length < str1.length then str1 else str2
  let shorter := if str2.length < str1.length then str2 else str1
  if longer.length = 0 then 1
  else ((longer.length : ℚ) - (levenshteinDistance longer shorter : ℚ)) / (longer.length : ℚ)

end Utils

namespace SecurityModule

/-- One entry of the per-guild raid window, as pushed by detectRaid. -/
structure JoinSample where
  userId : String
  timestamp : Int
  riskScore : ℚ
  accountAge : Int
deriving Repr, DecidableEq

/-- The analysis record produced by detectRaid. -/
structure RaidAnalysis where
  isRaid : Bool
  confidence : Nat
  joinCount : Nat
  suspiciousCount : Nat
  averageRisk : ℚ
  recommendations : List String
deriving Repr, DecidableEq

/-- Embeds the evaluation part of SecurityModule.detectRaid (lines 580
to 634) over the pruned window with the current join appended: the three
risk bonuses are evaluated inside the join-threshold branch, and isRaid
is set when the accumulated confidence reaches 60.  The lockdown
recommendation pushed when a raid is declared is included. -/
def raidAnalysis (joins : List JoinSample) (joinThreshold : Nat) : RaidAnalysis :=
  let joinCount := joins.length
  let suspiciousCount := (joins.filter (fun j => 30 < j.riskScore)).length
  let averageRisk := ((joins.map (fun j => j.riskScore)).sum) / (joinCount : ℚ)
  let newAccountCount := (joins.filter (fun j => j.accountAge < 86400000)).length
  let verification := decide ((joinCount : ℚ) * (6/10) ≤ (suspiciousCount : ℚ))
  let restrict := decide ((40 : ℚ) < averageRisk)
  let ageGate := decide ((joinCount : ℚ) * (7/10) ≤ (newAccountCount : ℚ))
  let confidence : Nat :=
    if joinThreshold ≤ joinCount then
      30 + (if verification then 40 else 0) + (if restrict then 30 else 0) +
        (if ageGate then 35 else 0)
    else 0
  let recommendations :=
    (if joinThreshold ≤ joinCount then
      (if verification then ["Enable verification requirements"] else []) ++
      (if restrict then ["Temporarily restrict new member permissions"] else []) ++
      (if ageGate then ["Implement account age requirements"] else [])
    else []) ++
    (if 60 ≤ confidence then ["Consider enabling server lockdown"] else [])
  { isRaid := decide (60 ≤ confidence), confidence := confidence, joinCount := joinCount,
    suspiciousCount := suspiciousCount, averageRisk := averageRisk,
    recommendations := recommendations }

/-- The window pruning of detectRaid: joins older than ten minutes are
dropped. -/
def pruneJoins (joins : List JoinSample) (now : Int) : List JoinSample :=
  joins.filter (fun j => now - 600000 < j.timestamp)

/-- Embeds SecurityModule.detectRaid on a raid window: prune, append the
current join, then evaluate. -/
def detectRaid (recentJoins : List JoinSample) (now : Int) (current : JoinSample)
    (joinThreshold : Nat) : RaidAnalysis :=
  raidAnalysis (pruneJoins recentJoins now ++ [current]) joinThreshold

end SecurityModule

namespace RaidProtection

/-- One join record of RaidProtection guild data. -/
structure JoinEntry where
  userId : String
  joinedAt : Int
  suspicious : Bool
  username : String
  accountCreated : Int
deriving Repr, DecidableEq

/-- The record returned by checkRaidConditions. -/
structure RaidCheck where
  isRaid : Bool
  raidScore : Nat
  indicators : List String
  recentJoins : Nat
  suspiciousJoins : Nat
  timeWindow : Int
deriving Repr, DecidableEq

/-- Embeds RaidProtection.checkRaidConditions (database.js lines 744 to
799): counts in-window joins, declares a raid purely from the join
threshold, and accumulates an auxiliary raid score from suspicious
accounts, repeated usernames and new accounts.  The source resolves
timeWindow and joinThreshold from guild config with a module default
fallback; the resolved values are parameters here.  Interpolated counts
in indicator strings are omitted. -/
def checkRaidConditions (joins : List JoinEntry) (now timeWindow : Int)
    (joinThreshold : Nat) (accountAgeThreshold : Int) : RaidCheck :=
  let recentJoins := joins.filter (fun j => now - j.joinedAt < timeWindow)
  let isRaid := decide (joinThreshold ≤ recentJoins.length)
  let suspiciousJoins := recentJoins.filter (fun j => j.suspicious)
  let uniqueUsernames := (recentJoins.map (fun j => j.username)).dedup
  let newAccounts := recentJoins.filter (fun j => now - j.accountCreated < accountAgeThreshold)
  let raidScore :=
    (if isRaid then 50 else 0) + (if 2 ≤ suspiciousJoins.length then 30 else 0) +
    (if 2 ≤ recentJoins.length - uniqueUsernames.length then 25 else 0) +
    (if 3 ≤ newAccounts.length then 20 else 0)
  { isRaid := isRaid, raidScore := raidScore
    indicators := (if isRaid then ["joins in window"] else []) ++
      (if 2 ≤ suspiciousJoins.length then ["suspicious accounts"] else []) ++
      (if 2 ≤ recentJoins.length - uniqueUsernames.length then ["Similar usernames detected"] else []) ++
      (if 3 ≤ newAccounts.length then ["new accounts"] else [])
    recentJoins := recentJoins.length, suspiciousJoins := suspiciousJoins.length
    timeWindow := timeWindow }

end RaidProtection

namespace ContentFilter

/-- Characters escaped by compilePatterns before substitution (the JS
class dot star plus question caret dollar braces parens pipe brackets
backslash). -/
def regexSpecials : List Char :=
  ['.', '*', '+', '?', '^', '$', Char.ofNat 123, Char.ofNat 125, '(', ')', '|', '[', ']', '\\']

/-- The regex-escape step of compilePatterns: specials get a leading
backslash. -/
def escapeRegex (w : List Char) : List Char :=
  w.flatMap (fun c => if c ∈ regexSpecials then ['\\', c] else [c])

/-- One global replace step of compilePatterns: every character of the
target class is replaced by the replacement string, all other characters
kept.  The source applies five such steps in sequence to the pattern
string itself, so later steps rewrite characters inside the class
strings inserted by earlier steps. -/
def substEvasion (targets : List Char) (repl : List Char) (s : List Char) : List Char :=
  s.flatMap (fun c => if c ∈ targets then repl else [c])

/-- The evasion pattern string built by compilePatterns for a built-in
word: escape, then the vowel, s, l, o and i substitutions in source
order. -/
def evasionPattern (w : List Char) : List Char :=
  substEvasion ['i', 'I'] "[i1!|]".toList
    (substEvasion ['o', 'O'] "[o0@]".toList
      (substEvasion ['l', 'L'] "[l1!|]".toList
        (substEvasion ['s', 'S'] "[s$5z]".toList
          (substEvasion ['a', 'e', 'i', 'o', 'u', 'A', 'E', 'I', 'O', 'U'] "[aeiou@3!0]".toList
            (escapeRegex w)))))

/-- Parses the generated pattern string into atoms, each atom being the
list of characters one content character may take: a bracket opens a
class running to the first closing bracket (as the JS regex engine
parses it), a backslash escapes the next character, anything else is a
literal.  The fuel is the string length; every step consumes at least
one character. -/
def parseAtomsAux : Nat → List Char → List (List Char)
  | 0, _ => []
  | _ + 1, [] => []
  | fuel + 1, '\\' :: c :: rest => [c] :: parseAtomsAux fuel rest
  | fuel + 1, '[' :: rest =>
    (rest.takeWhile (fun c => c ≠ ']')) ::
      parseAtomsAux fuel ((rest.dropWhile (fun c => c ≠ ']')).drop 1)
  | fuel + 1, c :: rest => [c] :: parseAtomsAux fuel rest

def parseAtoms (s : List Char) : List (List Char) := parseAtomsAux s.length s

/-- JS word characters, as tested by the word-boundary anchors the
source wraps every pattern in. -/
def isWordChar : Option Char → Bool
  | some c => c.isAlphanum || c = '_'
  | none => false

/-- A word boundary sits between two positions of different wordness. -/
def boundaryBetween (a b : Option Char) : Bool := isWordChar a != isWordChar b

/-- Case-insensitive single-character match against an atom, modelling
the i flag of the compiled patterns. -/
def atomMatches (atom : List Char) (c : Char) : Bool :=
  atom.any (fun p => p.toLower == c.toLower)

/-- Atoms against a prefix of the content. -/
def matchAtoms : List (List Char) → List Char → Bool
  | [], _ => true
  | _ :: _, [] => false
  | a :: as, c :: cs => atomMatches a c && matchAtoms as cs

/-- Number of non-overlapping left-to-right matches of the pattern with
word boundaries on both sides, as the global match of the source
returns; prev is the character before the current position.  The fuel
is one more than the content length. -/
def countMatchesAux : Nat → List (List Char) → Option Char → List Char → Nat
  | 0, _, _, _ => 0
  | fuel + 1, atoms, prev, s =>
    if boundaryBetween prev s.head? && matchAtoms atoms s &&
        boundaryBetween (s.take atoms.length).getLast? (s.drop atoms.length).head? then
      1 + countMatchesAux fuel atoms (s.take atoms.length).getLast? (s.drop atoms.length)
    else
      match s with
      | [] => 0
      | c :: cs => countMatchesAux fuel atoms (some c) cs

def countMatches (atoms : List (List Char)) (s : List Char) : Nat :=
  countMatchesAux (s.length + 1) atoms none s

/-- The five built-in profanity lists of the source, in object order. -/
def englishWords : List String :=
  ["damn", "hell", "crap", "stupid", "idiot", "moron", "dumb",
   "shit", "piss", "ass", "bitch", "bastard", "whore", "slut",
   "fuck", "fucking", "fucked", "fucker", "motherfucker",
   "cunt", "cock", "dick", "pussy", "tits", "boobs",
   "nigger", "nigga", "faggot", "retard", "spic", "chink",
   "kike", "wetback", "towelhead", "raghead"]

def spanishWords : List String :=
  ["mierda", "joder", "coño", "puta", "hijo de puta", "cabrón",
   "pendejo", "maricón", "gilipollas", "imbécil"]

def frenchWords : List String :=
  ["merde", "putain", "connard", "salope", "enculé", "fils de pute",
   "con", "bite", "chatte", "bordel"]

def germanWords : List String :=
  ["scheiße", "fick", "arsch", "fotze", "hurensohn", "wichser",
   "schwanz", "muschi", "verdammt"]

def portugueseWords : List String :=
  ["merda", "caralho", "porra", "filho da puta", "puta", "cu",
   "buceta", "cacete", "desgraça"]

def profanityLanguages : List (String × List String) :=
  [("english", englishWords), ("spanish", spanishWords), ("french", frenchWords),
   ("german", germanWords), ("portuguese", portugueseWords)]

def extremeWords : List String :=
  ["nigger", "nigga", "faggot", "retard", "spic", "chink",
   "kike", "wetback", "towelhead", "raghead"]

def strongWords : List String :=
  ["fuck", "fucking", "fucked", "fucker", "motherfucker",
   "cunt", "cock", "dick", "pussy", "tits", "boobs"]

def moderateWords : List String :=
  ["shit", "piss", "ass", "bitch", "bastard", "whore", "slut"]

/-- Embeds getWordSeverity: the fixed four-tier severity table. -/
def getWordSeverity (word : String) : Nat :=
  let lowerWord := String.mk (word.toList.map Char.toLower)
  if extremeWords.contains lowerWord then 4
  else if strongWords.contains lowerWord then 3
  else if moderateWords.contains lowerWord then 2
  else 1

/-- One detection entry pushed by analyzeText. -/
structure Detection where
  dtype : String
  lang : String
  word : String
  matchCount : Nat
  severity : Nat
deriving Repr, DecidableEq

/-- The inner word loop of analyzeText for one language: each matching
word pushes a profanity detection; in strict mode the loop breaks after
the first detection. -/
def scanWords (strict : Bool) (lang : String) : List String → List Char → List Detection
  | [], _ => []
  | w :: ws, norm =>
    let n := countMatches (parseAtoms (evasionPattern w.toList)) norm
    if n ≠ 0 then
      { dtype := "profanity", lang := lang, word := w, matchCount := n,
        severity := getWordSeverity w } ::
        (if strict then [] else scanWords strict lang ws norm)
    else scanWords strict lang ws norm

/-- The outer language loop of analyzeText: after a language, strict
mode stops as soon as anything has been detected. -/
def scanLanguages (strict : Bool) : List (String × List String) → List Char → List Detection
  | [], _ => []
  | (lang, ws) :: rest, norm =>
    let dets := scanWords strict lang ws norm
    if strict && !dets.isEmpty then dets
    else dets ++ scanLanguages strict rest norm

/-- The custom-word loop of analyzeText: exact escaped patterns, run
unconditionally after the built-in lists, with no strict-mode break. -/
def scanCustom (customWords : List String) (norm : List Char) : List Detection :=
  customWords.filterMap (fun w =>
    let n := countMatches (parseAtoms (escapeRegex w.toList)) norm
    if n = 0 then none
    else some { dtype := "custom_word", lang := "custom", word := w, matchCount := n, severity := 2 })

/-- The configuration consumed by the content filter. -/
structure Config where
  enabled : Bool
  strictMode : Bool
  customWords : List String
  whitelist : List String
  allowedFileTypes : List String
  maxFileSize : Nat
deriving Repr, DecidableEq

def trimChars (s : List Char) : List Char :=
  ((s.dropWhile Char.isWhitespace).reverse.dropWhile Char.isWhitespace).reverse

structure TextAnalysis where
  filtered : Bool
  severity : Nat
  detections : List Detection
  confidence : Nat
  language : String
deriving Repr, DecidableEq

/-- Embeds ContentFilter.analyzeText: empty or whitespace content is
clean; otherwise the lowercased trimmed content is scanned against the
built-in lists and then the custom words; severity is the maximum over
detections, confidence sums 20 per built-in match and 25 per custom
match, language ends up as the language of the last detection. -/
def analyzeText (cfg : Config) (content : String) : TextAnalysis :=
  if (trimChars content.toList).length = 0 then
    { filtered := false, severity := 0, detections := [], confidence := 0, language := "unknown" }
  else
    let norm := trimChars (content.toList.map Char.toLower)
    let builtin := scanLanguages cfg.strictMode profanityLanguages norm
    let custom := scanCustom cfg.customWords norm
    let dets := builtin ++ custom
    { filtered := !dets.isEmpty
      severity := dets.foldl (fun acc d => max acc d.severity) 0
      detections := dets
      confidence := (builtin.map (fun d => 20 * d.matchCount)).sum +
        (custom.map (fun d => 25 * d.matchCount)).sum
      language := ((dets.getLast?).map (fun d => d.lang)).getD "unknown" }

structure Attachment where
  name : String
  size : Nat
deriving Repr, DecidableEq

/-- Embeds getFileExtension: text after the last dot, lowercased, empty
when there is no dot. -/
def getFileExtension (fileName : String) : String :=
  let cs := fileName.toList
  if cs.contains '.' then
    String.mk ((cs.reverse.takeWhile (fun c => c ≠ '.')).reverse.map Char.toLower)
  else ""

def executableExtensions : List String :=
  ["exe", "bat", "cmd", "scr", "com", "pif", "vbs", "js"]

def suspiciousKeywords : List String :=
  ["virus", "malware", "trojan", "keylogger", "hack", "crack",
   "keygen", "patch", "loader", "cheat", "bot", "rat"]

/-- Substring containment, as the includes test of the source. -/
def hasSubstr (needle : List Char) : List Char → Bool
  | [] => needle.isEmpty
  | c :: t => needle.isPrefixOf (c :: t) || hasSubstr needle t

structure SuspiciousName where
  suspicious : Bool
  severity : Nat
  confidence : Nat
deriving Repr, DecidableEq

/-- Embeds checkSuspiciousFileName: executable extension, suspicious
keywords (25 confidence each, severity raised to at least 2) and
over-long names.  The overwritten reason string is omitted. -/
def checkSuspiciousFileName (fileName : String) : SuspiciousName :=
  let lowerName := fileName.toList.map Char.toLower
  let execHit := executableExtensions.contains (getFileExtension fileName)
  let kwHits := suspiciousKeywords.filter (fun k => hasSubstr k.toList lowerName)
  let sev1 : Nat := if execHit then 3 else 0
  let conf1 : Nat := if execHit then 40 else 0
  let sev2 := if !kwHits.isEmpty then max sev1 2 else sev1
  let conf2 := conf1 + 25 * kwHits.length
  let long := decide (200 < fileName.length)
  let sev3 := if long then max sev2 2 else sev2
  let conf3 := if long then conf2 + 20 else conf2
  { suspicious := execHit || !kwHits.isEmpty || long, severity := sev3, confidence := conf3 }

structure AttDetection where
  dtype : String
  fileName : String
  severity : Nat
deriving Repr, DecidableEq

structure AttachmentAnalysis where
  filtered : Bool
  severity : Nat
  detections : List AttDetection
  confidence : Nat
deriving Repr, DecidableEq

/-- One iteration of the attachment loop of analyzeAttachments:
disallowed extension, oversize and suspicious-name checks, each merging
into the running analysis. -/
def analyzeOneAttachment (cfg : Config) (acc : AttachmentAnalysis)
    (att : Attachment) : AttachmentAnalysis :=
  let ext := getFileExtension att.name
  let allowed := cfg.allowedFileTypes.contains (String.mk (ext.toList.map Char.toLower))
  let acc1 := if !allowed then
      { filtered := true, severity := max acc.severity 2, confidence := acc.confidence + 30,
        detections := acc.detections ++
          [{ dtype := "forbidden_file_type", fileName := att.name, severity := 2 }] }
    else acc
  let acc2 := if cfg.maxFileSize < att.size then
      { filtered := true, severity := max acc1.severity 1, confidence := acc1.confidence + 20,
        detections := acc1.detections ++
          [{ dtype := "file_too_large", fileName := att.name, severity := 1 }] }
    else acc1
  let s := checkSuspiciousFileName att.name
  if s.suspicious then
    { filtered := true, severity := max acc2.severity s.severity,
      confidence := acc2.confidence + s.confidence,
      detections := acc2.detections ++
        [{ dtype := "suspicious_filename", fileName := att.name, severity := s.severity }] }
  else acc2

/-- Embeds ContentFilter.analyzeAttachments. -/
def analyzeAttachments (cfg : Config) (attachments : List Attachment) : AttachmentAnalysis :=
  attachments.foldl (analyzeOneAttachment cfg)
    { filtered := false, severity := 0, detections := [], confidence := 0 }

/-- Detections of analyzeContent mix text and attachment entries in one
array; modelled as a sum. -/
inductive DetectionEntry where
  | text (d : Detection)
  | attachment (a : AttDetection)
deriving Repr, DecidableEq

structure ContentAnalysis where
  filtered : Bool
  severity : Nat
  detections : List DetectionEntry
  action : String
  confidence : Nat
  language : String
deriving Repr, DecidableEq

/-- Embeds isWhitelisted: by author id or tag. -/
def isWhitelisted (cfg : Config) (authorId authorTag : String) : Bool :=
  cfg.whitelist.contains authorId || cfg.whitelist.contains authorTag

/-- Embeds ContentFilter.determineAction: the severity tiers of the
content filter with the violation-count placeholder fixed at 0; the
fall-through result is delete. -/
def determineAction (severity : Nat) (userId : String) : String :=
  let violationCount : Nat := 0
  if 4 ≤ severity ∨ 5 ≤ violationCount then "ban"
  else if 3 ≤ severity ∨ 3 ≤ violationCount then "kick"
  else if 2 ≤ severity ∨ 2 ≤ violationCount then "timeout"
  else if 1 ≤ severity ∨ 1 ≤ violationCount then "warn"
  else "delete"

structure MessageIn where
  content : String
  authorId : String
  authorTag : String
  attachments : List Attachment
deriving Repr, DecidableEq

/-- Embeds ContentFilter.analyzeContent.  The detection cache is passed
as the optional cached result the source looks up before analysing (a
fresh cache entry is returned as is); the disabled and whitelisted
early returns carry action none as the source returns records without
an action field. -/
def analyzeContent (cfg : Config) (msg : MessageIn)
    (cached : Option ContentAnalysis) : ContentAnalysis :=
  if !cfg.enabled then
    { filtered := false, severity := 0, detections := [], action := "none",
      confidence := 0, language := "unknown" }
  else
    match cached with
    | some r => r
    | none =>
      if isWhitelisted cfg msg.authorId msg.authorTag then
        { filtered := false, severity := 0, detections := [], action := "none",
          confidence := 0, language := "unknown" }
      else
        let t := analyzeText cfg msg.content
        let afterText : ContentAnalysis :=
          if t.filtered then
            { filtered := true, severity := max 0 t.severity,
              detections := t.detections.map DetectionEntry.text,
              action := "none", confidence := t.confidence, language := t.language }
          else
            { filtered := false, severity := 0, detections := [], action := "none",
              confidence := 0, language := "unknown" }
        let afterAtt : ContentAnalysis :=
          if !msg.attachments.isEmpty then
            let a := analyzeAttachments cfg msg.attachments
            if a.filtered then
              { afterText with
                filtered := true
                severity := max afterText.severity a.severity
                detections := afterText.detections ++
                  a.detections.map DetectionEntry.attachment
                confidence := afterText.confidence + a.confidence }
            else afterText
          else afterText
        { afterAtt with
          action := determineAction afterAtt.severity msg.authorId
          confidence := min afterAtt.confidence 100 }

end ContentFilter

/-- A content-filter configuration with no custom words. -/
def baseFilterCfg : ContentFilter.Config :=
  { enabled := true, strictMode := false, customWords := [], whitelist := [],
    allowedFileTypes := ["jpg", "jpeg", "png", "gif", "webp", "mp4", "mov", "avi",
      "pdf", "txt", "doc", "docx", "zip", "rar"],
    maxFileSize := 52428800 }

/-- The same configuration with one custom word. -/
def customFilterCfg : ContentFilter.Config :=
  { baseFilterCfg with customWords := ["damn"] }

/-- A strict-mode configuration with two custom words. -/
def strictFilterCfg : ContentFilter.Config :=
  { baseFilterCfg with strictMode := true, customWords := ["foo", "bar"] }

/-- A clean message with no attachments from a non-whitelisted user. -/
def cleanMessage : ContentFilter.MessageIn :=
  { content := "zz", authorId := "1", authorTag := "user-one", attachments := [] }

/-- A violations map holding one user whose last violation is stale by
more than one hour relative to the read time used below. -/
def staleViolations : SpamDetection.ViolationsMap :=
  fun uid =>
    if uid = "u" then
      some { count := 3, lastViolation := 0, lastReason := "spam", lastSeverity := 50 }
    else none

/-- Five high-risk brand-new accounts joining in quick succession. -/
def demoRaidJoins : List SecurityModule.JoinSample :=
  [{ userId := "u1", timestamp := 0, riskScore := 100, accountAge := 0 },
   { userId := "u2", timestamp := 1, riskScore := 100, accountAge := 0 },
   { userId := "u3", timestamp := 2, riskScore := 100, accountAge := 0 },
   { userId := "u4", timestamp := 3, riskScore := 100, accountAge := 0 },
   { userId := "u5", timestamp := 4, riskScore := 100, accountAge := 0 }]

/-- Five plain in-window joins for the raid-protection check. -/
def demoJoinEntries5 : List RaidProtection.JoinEntry :=
  [{ userId := "u1", joinedAt := 900, suspicious := false, username := "a1", accountCreated := 0 },
   { userId := "u2", joinedAt := 910, suspicious := false, username := "a2", accountCreated := 0 },
   { userId := "u3", joinedAt := 920, suspicious := false, username := "a3", accountCreated := 0 },
   { userId := "u4", joinedAt := 930, suspicious := false, username := "a4", accountCreated := 0 },
   { userId := "u5", joinedAt := 940, suspicious := false, username := "a5", accountCreated := 0 }]

/-- Four plain in-window joins for the raid-protection check. -/
def demoJoinEntries4 : List RaidProtection.JoinEntry :=
  demoJoinEntries5.take 4

/-- Twenty-one distinct combining marks, only the zalgo signal fires. -/
def zalgoDemo : List Char := (List.range 21).map (fun i => Char.ofNat (0x300 + i))

namespace Utils

theorem levenshteinDistance_nil_right (xs : List Char) :
    levenshteinDistance xs [] = xs.length := by
  cases xs <;> simp [levenshteinDistance]

theorem levenshteinDistance_self (xs : List Char) :
    levenshteinDistance xs xs = 0 := by
  induction xs with
  | nil => simp [levenshteinDistance]
  | cons x xs ih => simp [levenshteinDistance, ih]

theorem levenshteinDistance_comm : ∀ xs ys : List Char,
    levenshteinDistance xs ys = levenshteinDistance ys xs
  | [], [] => rfl
  | [], _ :: _ => by simp [levenshteinDistance]
  | _ :: _, [] => by simp [levenshteinDistance]
  | x :: xs, y :: ys => by
    have h1 := levenshteinDistance_comm xs ys
    have h2 := levenshteinDistance_comm (x :: xs) ys
    have h3 := levenshteinDistance_comm xs (y :: ys)
    by_cases hxy : x = y
    · subst hxy
      simp [levenshteinDistance, h1]
    · have hyx : ¬ y = x := fun h => hxy h.symm
      simp only [levenshteinDistance, if_neg hxy, if_neg hyx, h1, h2, h3]
      omega
termination_by xs ys => xs.length + ys.length
decreasing_by all_goals simp_arith

end Utils

/-- Claim C1: the escalation decision maps severity and stored violation
count to an action by tiers where either threshold suffices (ban at
severity 80 or count 5, kick at 60 or 3, timeout at 40 or 2, warn at 20
or 1, else none); a fresh record with severity 85 yields ban, and after
five violations of severity 10 a decision at severity 10 yields ban from
the count alone. -/
theorem claim_C1_escalation_tiers :
    (∀ (m : SpamDetection.ViolationsMap) (uid : String) (sev count : Nat),
      (SpamDetection.getUserViolations m uid).count = count →
      ((SpamDetection.determineAction m uid sev = "ban" ↔ (80 ≤ sev ∨ 5 ≤ count)) ∧
      (SpamDetection.determineAction m uid sev = "kick" ↔
        (¬ (80 ≤ sev ∨ 5 ≤ count) ∧ (60 ≤ sev ∨ 3 ≤ count))) ∧
      (SpamDetection.determineAction m uid sev = "timeout" ↔
        (¬ (80 ≤ sev ∨ 5 ≤ count) ∧ ¬ (60 ≤ sev ∨ 3 ≤ count) ∧
        (40 ≤ sev ∨ 2 ≤ count))) ∧
      (SpamDetection.determineAction m uid sev = "warn" ↔
        (¬ (80 ≤ sev ∨ 5 ≤ count) ∧ ¬ (60 ≤ sev ∨ 3 ≤ count) ∧
        ¬ (40 ≤ sev ∨ 2 ≤ count) ∧ (20 ≤ sev ∨ 1 ≤ count))) ∧
      (SpamDetection.determineAction m uid sev = "none" ↔
        (¬ (80 ≤ sev ∨ 5 ≤ count) ∧ ¬ (60 ≤ sev ∨ 3 ≤ count) ∧
        ¬ (40 ≤ sev ∨ 2 ≤ count) ∧ ¬ (20 ≤ sev ∨ 1 ≤ count))))) ∧
    (∀ uid : String,
      SpamDetection.determineAction SpamDetection.emptyViolations uid 85 = "ban") ∧
    (∀ (uid : String) (ps : List (String × Int)), ps.length = 5 →
      SpamDetection.determineAction
        (ps.foldl (fun m p => SpamDetection.addViolation m uid p.1 10 p.2)
          SpamDetection.emptyViolations) uid 10 = "ban") := by
  have hcount : ∀ (m : SpamDetection.ViolationsMap) (uid : String) (ps : List (String × Int)),
      (SpamDetection.getUserViolations
        (ps.foldl (fun m p => SpamDetection.addViolation m uid p.1 10 p.2) m) uid).count
      = (SpamDetection.getUserViolations m uid).count + ps.length := by
    intro m uid ps
    induction ps generalizing m with
    | nil => simp
    | cons p ps ih =>
      rw [List.foldl_cons, ih]
      simp [SpamDetection.addViolation, SpamDetection.getUserViolations]
      omega
  refine ⟨?_, ?_, ?_⟩
  · intro m uid sev count hc
    simp only [SpamDetection.determineAction, hc]
    refine ⟨?_, ?_, ?_, ?_, ?_⟩ <;>
      · split_ifs with h1 h2 h3 h4 <;> simp_all
  · intro uid
    simp [SpamDetection.determineAction, SpamDetection.getUserViolations,
      SpamDetection.emptyViolations]
  · intro uid ps hlen
    have hv : (SpamDetection.getUserViolations
        (ps.foldl (fun m p => SpamDetection.addViolation m uid p.1 10 p.2)
          SpamDetection.emptyViolations) uid).count = 5 := by
      rw [hcount]
      simp [SpamDetection.getUserViolations, SpamDetection.emptyViolations, hlen]
    simp [SpamDetection.determineAction, hv]

/-- Witness for claim C1: the count branch of the theorem evaluated on
five concrete recordViolation calls for one user. -/
theorem claim_C1_escalation_tiers_witness :
    SpamDetection.determineAction
      ([("a", (1 : Int)), ("b", 2), ("c", 3), ("d", 4), ("e", 5)].foldl
        (fun m p => SpamDetection.addViolation m "u" p.1 10 p.2)
        SpamDetection.emptyViolations) "u" 10 = "ban" :=
  claim_C1_escalation_tiers.2.2 "u"
    [("a", 1), ("b", 2), ("c", 3), ("d", 4), ("e", 5)] (by decide)

/-- Claim C5: the similarity metric, defined from the Levenshtein edit
distance as (maxLen - editDistance) / maxLen, gives 1 on identical
strings, 1 on two empty strings, 0 against the empty string for any
non-empty string, and is symmetric. -/
theorem claim_C5_similarity_metric :
    (∀ s : List Char, Utils.calculateSimilarity s s = 1) ∧
    (Utils.calculateSimilarity [] [] = 1) ∧
    (∀ s : List Char, s ≠ [] → Utils.calculateSimilarity s [] = 0) ∧
    (∀ a b : List Char, Utils.calculateSimilarity a b = Utils.calculateSimilarity b a) := by
  have hself : ∀ s : List Char, Utils.calculateSimilarity s s = 1 := by
    intro s
    simp only [Utils.calculateSimilarity, lt_irrefl, if_false]
    by_cases h : s.length = 0
    · simp [h]
    · simp [h, Utils.levenshteinDistance_self]
  refine ⟨hself, hself [], ?_, ?_⟩
  · intro s hs
    have hn : 0 < s.length := List.length_pos.mpr hs
    have h0 : ¬ s.length = 0 := by omega
    simp only [Utils.calculateSimilarity, List.length_nil, if_pos hn, h0, if_false,
      Utils.levenshteinDistance_nil_right]
    simp
  · intro a b
    rcases lt_trichotomy a.length b.length with h | h | h
    · have h1 : ¬ (b.length < a.length) := by omega
      simp only [Utils.calculateSimilarity, if_pos h, if_neg h1]
    · have h1 : ¬ (b.length < a.length) := by omega
      have h2 : ¬ (a.length < b.length) := by omega
      simp only [Utils.calculateSimilarity, if_neg h1, if_neg h2]
      rw [Utils.levenshteinDistance_comm b a, h]
    · have h2 : ¬ (a.length < b.length) := by omega
      simp only [Utils.calculateSimilarity, if_pos h, if_neg h2]

/-- Witness for claim C5: the non-empty-versus-empty conjunct evaluated
at a concrete one-character string. -/
theorem claim_C5_similarity_metric_witness :
    Utils.calculateSimilarity ['a'] [] = 0 :=
  claim_C5_similarity_metric.2.2.1 ['a'] (by decide)

/-- Counterexample to claim C6: a read of the violation record two hours
after the last violation (without any cleanup run) still observes count
3, not 0 — getUserViolations performs no expiry check at read time. -/
theorem claim_C6_lazy_expiry_counterexample :
    3600000 < (7200000 : Int) - (SpamDetection.getUserViolations staleViolations "u").lastViolation ∧
    (SpamDetection.getUserViolations staleViolations "u").count = 3 ∧ (3 : Nat) ≠ 0 := by
  refine ⟨by decide, by decide, by decide⟩

/-- Claim C6 as amended: the count reset for a user whose last violation
is more than one hour old happens only through the periodic cleanup
sweep; after cleanupViolations runs, a read observes count 0. -/
theorem claim_C6_cleanup_expiry (m : SpamDetection.ViolationsMap) (uid : String) (now : Int)
    (h : 3600000 < now - (SpamDetection.getUserViolations m uid).lastViolation) :
    (SpamDetection.getUserViolations (SpamDetection.cleanupViolations m now) uid).count = 0 := by
  simp only [SpamDetection.getUserViolations, SpamDetection.cleanupViolations] at h ⊢
  cases hm : m uid with
  | none => simp [hm]
  | some v =>
    rw [hm] at h
    simp only [Option.getD_some] at h
    simp [hm, h]

/-- Witness for the amended claim C6, evaluated on the stale record. -/
theorem claim_C6_cleanup_expiry_witness :
    (SpamDetection.getUserViolations
      (SpamDetection.cleanupViolations staleViolations 7200000) "u").count = 0 :=
  claim_C6_cleanup_expiry staleViolations "u" 7200000 (by decide)

namespace SpamDetection

theorem sendsHistory_eq (content channelId : String) (times : List Int)
    (hp : times.Pairwise (fun s t => t - 300000 < s)) :
    sendsHistory content channelId times =
      times.map (fun t => { content := content, timestamp := t, channelId := channelId }) := by
  induction times using List.reverseRecOn with
  | nil => rfl
  | append_singleton ts t ih =>
    rw [List.pairwise_append] at hp
    obtain ⟨h1, _, h3⟩ := hp
    unfold sendsHistory at ih ⊢
    rw [List.foldl_append, List.foldl_cons, List.foldl_nil, ih h1]
    unfold updateHistory
    rw [List.map_append, List.map_singleton]
    congr 1
    rw [List.filter_eq_self]
    intro msg hmsg
    rw [List.mem_map] at hmsg
    obtain ⟨s, hs, rfl⟩ := hmsg
    simpa using h3 s hs t (List.mem_singleton_self t)

end SpamDetection

/-- Claim C2: the duplicate check flags exactly when the number of exact
content matches in the five-minute window (current message appended
before the check) exceeds maxDuplicateMessages, with confidence
min(count times 20, 80) and severity min(count times 15, 60); for a run
of identical sends inside the retention window, the k-th send triggers
exactly when k exceeds maxDuplicateMessages. -/
theorem claim_C2_duplicate_check :
    (∀ (m : Nat) (msgs : List SpamDetection.StoredMessage) (c : String),
      ((SpamDetection.checkDuplicateMessages m msgs c).isSpam = true ↔
        m < (msgs.filter (fun msg => msg.content = c)).length) ∧
      ((SpamDetection.checkDuplicateMessages m msgs c).confidence =
        if m < (msgs.filter (fun msg => msg.content = c)).length then
          min ((msgs.filter (fun msg => msg.content = c)).length * 20) 80 else 0) ∧
      ((SpamDetection.checkDuplicateMessages m msgs c).severity =
        if m < (msgs.filter (fun msg => msg.content = c)).length then
          min ((msgs.filter (fun msg => msg.content = c)).length * 15) 60 else 0)) ∧
    (∀ (m : Nat) (content channelId : String) (times : List Int),
      times.Pairwise (fun s t => t - 300000 < s) →
      ((SpamDetection.checkDuplicateMessages m
          (SpamDetection.sendsHistory content channelId times) content).isSpam = true ↔
        m < times.length)) := by
  have hbase : ∀ (m : Nat) (msgs : List SpamDetection.StoredMessage) (c : String),
      ((SpamDetection.checkDuplicateMessages m msgs c).isSpam = true ↔
        m < (msgs.filter (fun msg => msg.content = c)).length) ∧
      ((SpamDetection.checkDuplicateMessages m msgs c).confidence =
        if m < (msgs.filter (fun msg => msg.content = c)).length then
          min ((msgs.filter (fun msg => msg.content = c)).length * 20) 80 else 0) ∧
      ((SpamDetection.checkDuplicateMessages m msgs c).severity =
        if m < (msgs.filter (fun msg => msg.content = c)).length then
          min ((msgs.filter (fun msg => msg.content = c)).length * 15) 60 else 0) := by
    intro m msgs c
    by_cases h : m < (msgs.filter (fun msg => msg.content = c)).length <;>
      simp [SpamDetection.checkDuplicateMessages, h]
  refine ⟨hbase, ?_⟩
  intro m content channelId times hp
  rw [(hbase m _ content).1, SpamDetection.sendsHistory_eq content channelId times hp]
  rw [List.filter_eq_self.mpr (by intro a ha; simp at ha; obtain ⟨s, _, rfl⟩ := ha; simp)]
  rw [List.length_map]

/-- Witness for claim C2: with maxDuplicateMessages 1, the second
identical send inside the window triggers and the first does not. -/
theorem claim_C2_duplicate_check_witness :
    (SpamDetection.checkDuplicateMessages 1
      (SpamDetection.sendsHistory "hi" "ch" [0, 1]) "hi").isSpam = true ∧
    (SpamDetection.checkDuplicateMessages 1
      (SpamDetection.sendsHistory "hi" "ch" [0]) "hi").isSpam = false := by
  constructor
  · exact (claim_C2_duplicate_check.2 1 "hi" "ch" [0, 1] (by decide)).mpr (by decide)
  · have h := claim_C2_duplicate_check.2 1 "hi" "ch" [0] (by decide)
    simp only [List.length_singleton, Nat.lt_irrefl, iff_false, Bool.not_eq_true] at h
    exact h

/-- Claim C3: the raid evaluation accumulates confidence 30 from the
join-threshold base trigger, and inside that branch 40 when at least 60
percent of windowed joins carry risk above 30 (recommending
verification), 30 when the mean risk exceeds 40 (recommending restricted
permissions), and 35 when at least 70 percent of joins are younger than
24 hours (recommending account-age gating); a raid is declared exactly
when the accumulated confidence reaches 60. -/
theorem claim_C3_raid_confidence (joins : List SecurityModule.JoinSample) (T : Nat)
    (hne : joins ≠ []) :
    ((SecurityModule.raidAnalysis joins T).confidence =
      (if T ≤ joins.length then
        30 + (if 6 * joins.length ≤ 10 * (joins.filter (fun j => 30 < j.riskScore)).length
                then 40 else 0)
          + (if (40 * joins.length : ℚ) < (joins.map (fun j => j.riskScore)).sum
                then 30 else 0)
          + (if 7 * joins.length ≤ 10 * (joins.filter (fun j => j.accountAge < 86400000)).length
                then 35 else 0)
      else 0)) ∧
    ((SecurityModule.raidAnalysis joins T).isRaid = true ↔
      60 ≤ (SecurityModule.raidAnalysis joins T).confidence) ∧
    ("Enable verification requirements" ∈ (SecurityModule.raidAnalysis joins T).recommendations ↔
      T ≤ joins.length ∧
        6 * joins.length ≤ 10 * (joins.filter (fun j => 30 < j.riskScore)).length) ∧
    ("Temporarily restrict new member permissions" ∈
        (SecurityModule.raidAnalysis joins T).recommendations ↔
      T ≤ joins.length ∧ (40 * joins.length : ℚ) < (joins.map (fun j => j.riskScore)).sum) ∧
    ("Implement account age requirements" ∈ (SecurityModule.raidAnalysis joins T).recommendations ↔
      T ≤ joins.length ∧
        7 * joins.length ≤ 10 * (joins.filter (fun j => j.accountAge < 86400000)).length) ∧
    ("Consider enabling server lockdown" ∈ (SecurityModule.raidAnalysis joins T).recommendations ↔
      (SecurityModule.raidAnalysis joins T).isRaid = true) := by
  have hn0 : 0 < joins.length := List.length_pos.mpr hne
  have hnQ : (0 : ℚ) < (joins.length : ℚ) := by exact_mod_cast hn0
  have hver : ((joins.length : ℚ) * (6/10) ≤
      ((joins.filter (fun j => 30 < j.riskScore)).length : ℚ)) ↔
      6 * joins.length ≤ 10 * (joins.filter (fun j => 30 < j.riskScore)).length := by
    constructor
    · intro h
      have h2 : ((6 * joins.length : Nat) : ℚ) ≤ ((10 * (joins.filter (fun j => 30 < j.riskScore)).length : Nat) : ℚ) := by
        push_cast
        linarith
      exact_mod_cast h2
    · intro h
      have h2 : ((6 * joins.length : Nat) : ℚ) ≤ ((10 * (joins.filter (fun j => 30 < j.riskScore)).length : Nat) : ℚ) := by
        exact_mod_cast h
      push_cast at h2
      linarith
  have hage : ((joins.length : ℚ) * (7/10) ≤
      ((joins.filter (fun j => j.accountAge < 86400000)).length : ℚ)) ↔
      7 * joins.length ≤ 10 * (joins.filter (fun j => j.accountAge < 86400000)).length := by
    constructor
    · intro h
      have h2 : ((7 * joins.length : Nat) : ℚ) ≤ ((10 * (joins.filter (fun j => j.accountAge < 86400000)).length : Nat) : ℚ) := by
        push_cast
        linarith
      exact_mod_cast h2
    · intro h
      have h2 : ((7 * joins.length : Nat) : ℚ) ≤ ((10 * (joins.filter (fun j => j.accountAge < 86400000)).length : Nat) : ℚ) := by
        exact_mod_cast h
      push_cast at h2
      linarith
  have havg : ((40 : ℚ) < (joins.map (fun j => j.riskScore)).sum / (joins.length : ℚ)) ↔
      (40 * joins.length : ℚ) < (joins.map (fun j => j.riskScore)).sum := by
    rw [lt_div_iff₀ hnQ]
  by_cases hT : T ≤ joins.length <;>
    by_cases h1 : 6 * joins.length ≤ 10 * (joins.filter (fun j => 30 < j.riskScore)).length <;>
    by_cases h2 : (40 * joins.length : ℚ) < (joins.map (fun j => j.riskScore)).sum <;>
    by_cases h3 : 7 * joins.length ≤ 10 * (joins.filter (fun j => j.accountAge < 86400000)).length <;>
    simp [SecurityModule.raidAnalysis, hver, havg, hage, hT, h1, h2, h3]

/-- Witness for claim C3: five high-risk day-old joins with threshold
five declare a raid. -/
theorem claim_C3_raid_confidence_witness :
    (SecurityModule.raidAnalysis demoRaidJoins 5).isRaid = true ∧
    "Implement account age requirements" ∈ (SecurityModule.raidAnalysis demoRaidJoins 5).recommendations := by
  have h := claim_C3_raid_confidence demoRaidJoins 5 (by simp [demoRaidJoins])
  have hlen : demoRaidJoins.length = 5 := by norm_num [demoRaidJoins]
  have hsc : (demoRaidJoins.filter (fun j => 30 < j.riskScore)).length = 5 := by
    norm_num [demoRaidJoins, List.filter]
  have hna : (demoRaidJoins.filter (fun j => j.accountAge < 86400000)).length = 5 := by
    norm_num [demoRaidJoins, List.filter]
  have hsum : (demoRaidJoins.map (fun j => j.riskScore)).sum = 500 := by
    norm_num [demoRaidJoins, List.sum_cons, List.sum_nil]
  constructor
  · apply h.2.1.mpr
    rw [h.1, hlen, hsc, hna, hsum]
    norm_num
  · apply h.2.2.2.2.1.mpr
    constructor
    · rw [hlen]
    · rw [hlen, hna]
      norm_num

/-- Claim C4: with joinThreshold 5, five joins inside the configured
time window make checkRaidConditions report a raid, and four do not. -/
theorem claim_C4_join_threshold :
    (∀ (joins : List RaidProtection.JoinEntry) (now timeWindow aat : Int),
      (joins.filter (fun j => now - j.joinedAt < timeWindow)).length = 5 →
      (RaidProtection.checkRaidConditions joins now timeWindow 5 aat).isRaid = true) ∧
    (∀ (joins : List RaidProtection.JoinEntry) (now timeWindow aat : Int),
      (joins.filter (fun j => now - j.joinedAt < timeWindow)).length = 4 →
      (RaidProtection.checkRaidConditions joins now timeWindow 5 aat).isRaid = false) := by
  constructor <;> intro joins now timeWindow aat h <;>
    simp [RaidProtection.checkRaidConditions, h]

/-- Witness for claim C4: concrete five-join and four-join windows. -/
theorem claim_C4_join_threshold_witness :
    (RaidProtection.checkRaidConditions demoJoinEntries5 1000 600000 5 0).isRaid = true ∧
    (RaidProtection.checkRaidConditions demoJoinEntries4 1000 600000 5 0).isRaid = false :=
  ⟨claim_C4_join_threshold.1 demoJoinEntries5 1000 600000 0 (by decide),
   claim_C4_join_threshold.2 demoJoinEntries4 1000 600000 0 (by decide)⟩

namespace SpamDetection

theorem hasRepeatedRun_cons (a : Char) (l : List Char)
    (h : hasRepeatedRun l = true) : hasRepeatedRun (a :: l) = true := by
  simp only [hasRepeatedRun, Bool.or_eq_true]
  exact Or.inr h

theorem hasRepeatedRun_iff (l : List Char) :
    hasRepeatedRun l = true ↔
      ∃ l1 c l2, l = l1 ++ List.replicate 5 c ++ l2 ∧ c ∉ lineTerminators := by
  constructor
  · induction l with
    | nil => intro h; simp [hasRepeatedRun] at h
    | cons a l ih =>
      intro h
      simp only [hasRepeatedRun, Bool.or_eq_true] at h
      rcases h with h | h
      · rcases l with _ | ⟨b, _ | ⟨c, _ | ⟨d, _ | ⟨e, rest⟩⟩⟩⟩
        · simp [repeatedWindow] at h
        · simp [repeatedWindow] at h
        · simp [repeatedWindow] at h
        · simp [repeatedWindow] at h
        · rw [repeatedWindow, decide_eq_true_eq] at h
          obtain ⟨hab, hbc, hcd, hde, hterm⟩ := h
          subst hab hbc hcd hde
          exact ⟨[], a, rest, by simp [List.replicate], hterm⟩
      · obtain ⟨l1, c0, l2, heq, hc0⟩ := ih h
        exact ⟨a :: l1, c0, l2, by rw [heq]; simp, hc0⟩
  · rintro ⟨l1, c, l2, rfl, hc⟩
    induction l1 with
    | nil =>
      simp only [List.nil_append, List.replicate, List.cons_append]
      simp only [hasRepeatedRun, repeatedWindow, Bool.or_eq_true, decide_eq_true_eq]
      exact Or.inl (by simp [hc])
    | cons a l1 ih =>
      have hsh : (a :: l1) ++ List.replicate 5 c ++ l2 =
          a :: (l1 ++ List.replicate 5 c ++ l2) := by simp
      rw [hsh]
      exact hasRepeatedRun_cons a _ ih

theorem capsTriggered_iff (content : List Char) :
    (!((capsRunLengths content).filter (fun n => 10 ≤ n)).isEmpty &&
        decide (20 < content.length) &&
        decide ((7 : ℚ)/10 < ((((capsRunLengths content).filter (fun n => 10 ≤ n)).sum : ℚ) /
          (content.length : ℚ)))) = true ↔
      ((∃ n ∈ capsRunLengths content, 10 ≤ n) ∧ 20 < content.length ∧
        7 * content.length < 10 * ((capsRunLengths content).filter (fun n => 10 ≤ n)).sum) := by
  rw [Bool.and_eq_true, Bool.and_eq_true, Bool.not_eq_true', List.isEmpty_eq_false_iff_exists_mem,
    decide_eq_true_eq, decide_eq_true_eq]
  constructor
  · rintro ⟨⟨⟨n, hn⟩, hlen⟩, hratio⟩
    rw [List.mem_filter, decide_eq_true_eq] at hn
    have hL : (0 : ℚ) < (content.length : ℚ) := by
      exact_mod_cast Nat.lt_of_lt_of_le (by norm_num) hlen.le
    rw [div_lt_div_iff₀ (by norm_num) hL] at hratio
    refine ⟨⟨n, hn.1, hn.2⟩, hlen, ?_⟩
    have hq : (7 : ℚ) * (content.length : ℚ) <
        10 * ((((capsRunLengths content).filter (fun n => 10 ≤ n)).sum : ℚ)) := by
      linarith
    exact_mod_cast hq
  · rintro ⟨⟨n, hn1, hn2⟩, hlen, hratio⟩
    have hL : (0 : ℚ) < (content.length : ℚ) := by
      exact_mod_cast Nat.lt_of_lt_of_le (by norm_num) hlen.le
    refine ⟨⟨⟨n, ?_⟩, hlen⟩, ?_⟩
    · rw [List.mem_filter, decide_eq_true_eq]
      exact ⟨hn1, hn2⟩
    · rw [div_lt_div_iff₀ (by norm_num) hL]
      have hq : (7 : ℚ) * (content.length : ℚ) <
          10 * ((((capsRunLengths content).filter (fun n => 10 ≤ n)).sum : ℚ)) := by
        exact_mod_cast hratio
      linarith

end SpamDetection

/-- Counterexample to claim C8: for a message of 21 distinct combining
marks, only the zalgo signal fires and the computed confidence is 40,
not the 35 the claim states (the severity is 35 as claimed). -/
theorem claim_C8_zalgo_counterexample :
    (SpamDetection.checkContentPatterns zalgoDemo).confidence = 40 ∧
    (SpamDetection.checkContentPatterns zalgoDemo).severity = 35 ∧
    (40 : Nat) ≠ 35 := by
  refine ⟨by decide, by decide, by decide⟩

open Classical in
/-- Claim C8 as amended: the pattern check adds, per signal and
independently, +25 confidence and +20 severity for a repeated run of
five equal characters, +20 and +15 for caps runs of at least ten
characters covering more than 70 percent of a message longer than 20
characters, +30 and +25 for more than 10 emoji code points, +40
confidence (not +35) and +35 severity for more than 20 combining marks,
and +35 and +30 for more than 5 invisible characters. -/
theorem claim_C8_pattern_check (content : List Char) :
    ((SpamDetection.checkContentPatterns content).confidence =
      (if ∃ l1 c l2, content = l1 ++ List.replicate 5 c ++ l2 ∧ c ∉ SpamDetection.lineTerminators
        then 25 else 0) +
      (if (∃ n ∈ SpamDetection.capsRunLengths content, 10 ≤ n) ∧ 20 < content.length ∧
          7 * content.length <
            10 * ((SpamDetection.capsRunLengths content).filter (fun n => 10 ≤ n)).sum
        then 20 else 0) +
      (if 10 < (content.filter SpamDetection.isEmojiChar).length then 30 else 0) +
      (if 20 < (content.filter SpamDetection.isZalgoChar).length then 40 else 0) +
      (if 5 < (content.filter SpamDetection.isInvisibleChar).length then 35 else 0)) ∧
    ((SpamDetection.checkContentPatterns content).severity =
      (if ∃ l1 c l2, content = l1 ++ List.replicate 5 c ++ l2 ∧ c ∉ SpamDetection.lineTerminators
        then 20 else 0) +
      (if (∃ n ∈ SpamDetection.capsRunLengths content, 10 ≤ n) ∧ 20 < content.length ∧
          7 * content.length <
            10 * ((SpamDetection.capsRunLengths content).filter (fun n => 10 ≤ n)).sum
        then 15 else 0) +
      (if 10 < (content.filter SpamDetection.isEmojiChar).length then 25 else 0) +
      (if 20 < (content.filter SpamDetection.isZalgoChar).length then 35 else 0) +
      (if 5 < (content.filter SpamDetection.isInvisibleChar).length then 30 else 0)) ∧
    ((SpamDetection.checkContentPatterns content).isSpam = true ↔
      ((∃ l1 c l2, content = l1 ++ List.replicate 5 c ++ l2 ∧ c ∉ SpamDetection.lineTerminators) ∨
        ((∃ n ∈ SpamDetection.capsRunLengths content, 10 ≤ n) ∧ 20 < content.length ∧
          7 * content.length <
            10 * ((SpamDetection.capsRunLengths content).filter (fun n => 10 ≤ n)).sum) ∨
        10 < (content.filter SpamDetection.isEmojiChar).length ∨
        20 < (content.filter SpamDetection.isZalgoChar).length ∨
        5 < (content.filter SpamDetection.isInvisibleChar).length)) := by
  have hrep := SpamDetection.hasRepeatedRun_iff content
  have hcaps := SpamDetection.capsTriggered_iff content
  by_cases p1 : ∃ l1 c l2, content = l1 ++ List.replicate 5 c ++ l2 ∧
      c ∉ SpamDetection.lineTerminators <;>
    by_cases p2 : (∃ n ∈ SpamDetection.capsRunLengths content, 10 ≤ n) ∧ 20 < content.length ∧
      7 * content.length <
        10 * ((SpamDetection.capsRunLengths content).filter (fun n => 10 ≤ n)).sum
  · have b1 := hrep.mpr p1
    have b2 := hcaps.mpr p2
    refine ⟨?_, ?_, ?_⟩
    · simp only [SpamDetection.checkContentPatterns]
      rw [if_pos b1, if_pos p1, if_pos b2, if_pos p2]
    · simp only [SpamDetection.checkContentPatterns]
      rw [if_pos b1, if_pos p1, if_pos b2, if_pos p2]
    · simp only [SpamDetection.checkContentPatterns, Bool.or_eq_true, decide_eq_true_eq]
      rw [hrep, hcaps]
      simp only [or_assoc]
  · have b1 := hrep.mpr p1
    have b2 : ¬ _ = true := fun hb => p2 (hcaps.mp hb)
    refine ⟨?_, ?_, ?_⟩
    · simp only [SpamDetection.checkContentPatterns]
      rw [if_pos b1, if_pos p1, if_neg b2, if_neg p2]
    · simp only [SpamDetection.checkContentPatterns]
      rw [if_pos b1, if_pos p1, if_neg b2, if_neg p2]
    · simp only [SpamDetection.checkContentPatterns, Bool.or_eq_true, decide_eq_true_eq]
      rw [hrep, hcaps]
      simp only [or_assoc]
  · have b1 : ¬ _ = true := fun hb => p1 (hrep.mp hb)
    have b2 := hcaps.mpr p2
    refine ⟨?_, ?_, ?_⟩
    · simp only [SpamDetection.checkContentPatterns]
      rw [if_neg b1, if_neg p1, if_pos b2, if_pos p2]
    · simp only [SpamDetection.checkContentPatterns]
      rw [if_neg b1, if_neg p1, if_pos b2, if_pos p2]
    · simp only [SpamDetection.checkContentPatterns, Bool.or_eq_true, decide_eq_true_eq]
      rw [hrep, hcaps]
      simp only [or_assoc]
  · have b1 : ¬ _ = true := fun hb => p1 (hrep.mp hb)
    have b2 : ¬ _ = true := fun hb => p2 (hcaps.mp hb)
    refine ⟨?_, ?_, ?_⟩
    · simp only [SpamDetection.checkContentPatterns]
      rw [if_neg b1, if_neg p1, if_neg b2, if_neg p2]
    · simp only [SpamDetection.checkContentPatterns]
      rw [if_neg b1, if_neg p1, if_neg b2, if_neg p2]
    · simp only [SpamDetection.checkContentPatterns, Bool.or_eq_true, decide_eq_true_eq]
      rw [hrep, hcaps]
      simp only [or_assoc]

namespace ContentFilter

theorem scanWords_strict_length (lang : String) (ws : List String) (norm : List Char) :
    (scanWords true lang ws norm).length ≤ 1 := by
  induction ws with
  | nil => simp [scanWords]
  | cons w ws ih =>
    simp only [scanWords]
    split_ifs with h
    · simp
    · exact ih

theorem scanLanguages_strict_length (langs : List (String × List String)) (norm : List Char) :
    (scanLanguages true langs norm).length ≤ 1 := by
  induction langs with
  | nil => simp [scanLanguages]
  | cons p rest ih =>
    obtain ⟨lang, ws⟩ := p
    simp only [scanLanguages]
    by_cases h : (scanWords true lang ws norm).isEmpty
    · have hnil : scanWords true lang ws norm = [] := by
        rwa [List.isEmpty_iff] at h
      simp [h, hnil, ih]
    · simpa [h] using scanWords_strict_length lang ws norm

theorem scanWords_dtype (strict : Bool) (lang : String) (ws : List String) (norm : List Char)
    (d : Detection) (hd : d ∈ scanWords strict lang ws norm) : d.dtype = "profanity" := by
  induction ws with
  | nil => simp [scanWords] at hd
  | cons w ws ih =>
    simp only [scanWords] at hd
    by_cases h : countMatches (parseAtoms (evasionPattern w.toList)) norm ≠ 0
    · rw [if_pos h] at hd
      rcases List.mem_cons.mp hd with h1 | h1
      · rw [h1]
      · cases strict
        · exact ih (by simpa using h1)
        · simp at h1
    · rw [if_neg h] at hd
      exact ih hd

theorem scanLanguages_dtype (strict : Bool) (langs : List (String × List String))
    (norm : List Char) (d : Detection) (hd : d ∈ scanLanguages strict langs norm) :
    d.dtype = "profanity" := by
  induction langs with
  | nil => simp [scanLanguages] at hd
  | cons p rest ih =>
    obtain ⟨lang, ws⟩ := p
    simp only [scanLanguages] at hd
    by_cases h : (strict && !(scanWords strict lang ws norm).isEmpty) = true
    · rw [if_pos h] at hd
      exact scanWords_dtype strict lang ws norm d hd
    · rw [if_neg h] at hd
      rcases List.mem_append.mp hd with h1 | h1
      · exact scanWords_dtype strict lang ws norm d h1
      · exact ih h1

theorem scanCustom_dtype (ws : List String) (norm : List Char) (d : Detection)
    (hd : d ∈ scanCustom ws norm) : d.dtype = "custom_word" := by
  simp only [scanCustom, List.mem_filterMap] at hd
  obtain ⟨w, _, hw⟩ := hd
  split at hw
  · simp at hw
  · rw [← Option.some_inj.mp hw]

end ContentFilter

set_option maxRecDepth 8192 in
/-- Claim C7: the claim asserts built-in profanity words are detected at
word boundaries case-insensitively including leetspeak variants, while
custom words match exactly with no leetspeak fuzzing.  The custom half
holds, but no built-in word containing a vowel can match: the sequential
replace chain of compilePatterns rewrites the o and i inside the
previously inserted class string so every vowel expands to a broken
pattern demanding the literal characters u at-sign 3 bang 0 bracket.
This theorem evaluates the embedded analyzeText: damn is in the built-in
English list yet neither damn nor its leet variant is detected, while
the same word as a custom word is detected exactly and its leet variant
is not. -/
theorem claim_C7_wordlist_matching :
    "damn" ∈ ContentFilter.englishWords ∧
    (ContentFilter.analyzeText baseFilterCfg "damn").filtered = false ∧
    (ContentFilter.analyzeText baseFilterCfg "d@mn").filtered = false ∧
    (ContentFilter.analyzeText customFilterCfg "damn").filtered = true ∧
    (ContentFilter.analyzeText customFilterCfg "d@mn").filtered = false := by
  refine ⟨by decide, by decide, by decide, by decide, by decide⟩

set_option maxRecDepth 8192 in
/-- Counterexample to claim C9: in strict mode a text containing two
custom filtered words still produces two detection entries, because the
strict-mode break only covers the built-in lists, not the custom-word
loop. -/
theorem claim_C9_strict_counterexample :
    strictFilterCfg.strictMode = true ∧
    (ContentFilter.analyzeText strictFilterCfg "foo bar").detections.length = 2 ∧
    ¬ ((ContentFilter.analyzeText strictFilterCfg "foo bar").detections.length ≤ 1) := by
  have hlen : (ContentFilter.analyzeText strictFilterCfg "foo bar").detections.length = 2 := by
    decide
  exact ⟨rfl, hlen, by rw [hlen]; decide⟩

/-- Claim C9 as amended: in strict mode the scan of the built-in
profanity lists stops after the first detection, so at most one
profanity detection entry is produced; custom-word detections are still
appended for every matching custom word. -/
theorem claim_C9_strict_profanity_limit (cfg : ContentFilter.Config) (content : String)
    (h : cfg.strictMode = true) :
    ((ContentFilter.analyzeText cfg content).detections.filter
      (fun d => d.dtype = "profanity")).length ≤ 1 := by
  have key : ∀ B C : List ContentFilter.Detection, B.length ≤ 1 →
      (∀ d ∈ C, d.dtype = "custom_word") →
      ((B ++ C).filter (fun d => d.dtype = "profanity")).length ≤ 1 := by
    intro B C hB hC
    rw [List.filter_append, List.length_append]
    have h1 := List.length_filter_le (fun d => decide (d.dtype = "profanity")) B
    have h2 : C.filter (fun d => d.dtype = "profanity") = [] := by
      rw [List.filter_eq_nil_iff]
      intro d hd
      simp [hC d hd]
    rw [h2]
    simp only [List.length_nil]
    omega
  unfold ContentFilter.analyzeText
  split_ifs with h0
  · simp
  · dsimp only
    apply key
    · rw [h]
      exact ContentFilter.scanLanguages_strict_length _ _
    · intro d hd
      exact ContentFilter.scanCustom_dtype _ _ d hd

/-- Witness for the amended claim C9, on the strict two-custom-word
configuration. -/
theorem claim_C9_strict_profanity_limit_witness :
    ((ContentFilter.analyzeText strictFilterCfg "foo bar").detections.filter
      (fun d => d.dtype = "profanity")).length ≤ 1 :=
  claim_C9_strict_profanity_limit strictFilterCfg "foo bar" rfl

/-- Claim C10: with filtering enabled, a non-whitelisted author, no
cached result, and neither the text analysis nor the attachment
analysis triggering, the returned action is delete (the fall-through
floor of the severity table) while filtered stays false. -/
theorem claim_C10_clean_message_delete (cfg : ContentFilter.Config)
    (msg : ContentFilter.MessageIn)
    (he : cfg.enabled = true)
    (hw : ContentFilter.isWhitelisted cfg msg.authorId msg.authorTag = false)
    (ht : (ContentFilter.analyzeText cfg msg.content).filtered = false)
    (ha : (ContentFilter.analyzeAttachments cfg msg.attachments).filtered = false) :
    (ContentFilter.analyzeContent cfg msg none).action = "delete" ∧
    (ContentFilter.analyzeContent cfg msg none).filtered = false := by
  by_cases hatt : msg.attachments.isEmpty <;>
    simp [ContentFilter.analyzeContent, ContentFilter.determineAction,
      he, hw, ht, ha, hatt]

set_option maxRecDepth 8192 in
/-- Witness for claim C10: a clean two-character message with no
attachments under the base configuration. -/
theorem claim_C10_clean_message_delete_witness :
    (ContentFilter.analyzeContent baseFilterCfg cleanMessage none).action = "delete" ∧
    (ContentFilter.analyzeContent baseFilterCfg cleanMessage none).filtered = false :=
  claim_C10_clean_message_delete baseFilterCfg cleanMessage rfl (by decide) (by decide) rfl
